import Mathlib

/-!
Shallow embedding of the retrieval-routing core of
`src/backend/main.py` (the `/chat` handler of the AI-powered
information-security policy advisor).

Modelling choices:
* Similarity scores are Python floats compared against the literal
  thresholds `0.45` and `0.4`; they are embedded as rationals (`ℚ`).
* The Cohere LLM calls are opaque external collaborators; they are
  passed in as function parameters (`chatLLM`, `ragLLM`).
* The per-request instrumentation written to `request.state`
  (`vdb_time_*` aside, which is wall-clock time and not modelled) is
  collected in an `Effects` record, together with which vector-store
  searches were actually performed and the context string handed to
  the RAG chain.
* Python exceptions raised by the similarity-search provider are
  modelled with `Except`: `chat_handler_exc` takes each partition's
  search outcome as `Except String (List Scored)` and, exactly as the
  Python code (which has no `try`/`except`), lets an error abort the
  handler.
-/

namespace PolicyAdvisor

/-- A retrieved document; `page_content` mirrors LangChain's field. -/
structure Doc where
  page_content : String
deriving DecidableEq

/-- A `(doc, score)` pair as returned by `similarity_search_with_score`. -/
abbrev Scored := Doc × ℚ

/-- `main.py` line 210-215: the conversational phrase list. -/
def conversational_phrases : List String :=
  ["hello", "hi", "hey", "yo", "hai",
   "how are you", "how are you doing", "what\x27s up",
   "thank you", "thanks", "thx",
   "good work", "great job", "awesome", "perfect", "ok", "cool"]

/-- Python `str.strip()` on a character list: drop whitespace from both
ends. -/
def stripChars (l : List Char) : List Char :=
  ((l.dropWhile Char.isWhitespace).reverse.dropWhile Char.isWhitespace).reverse

/-- `main.py` line 209: `chat_request.question.lower().strip()`
(ASCII lowering, whitespace stripped from both ends). -/
def normalizeQuery (q : String) : String :=
  ⟨stripChars (q.data.map Char.toLower)⟩

/-- `main.py` line 217: `if lowered_question in conversational_phrases`. -/
def isConversational (q : String) : Bool :=
  conversational_phrases.contains (normalizeQuery q)

/-- `main.py` line 246: `score_threshold = 0.45`. -/
def score_threshold : ℚ := mkRat 45 100

/-- `main.py` line 275: `fallback_threshold = 0.4`. -/
def fallback_threshold : ℚ := mkRat 4 10

/-- `main.py` lines 247 and 276:
`[doc for doc, score in docs_with_scores if score >= threshold]`. -/
def acceptDocs (thr : ℚ) (results : List Scored) : List Doc :=
  (results.filter fun ds => thr ≤ ds.2).map Prod.fst

/-- `main.py` lines 251 and 280:
`"\n\n".join([doc.page_content for doc in docs])`. -/
def joinContext (docs : List Doc) : String :=
  String.intercalate "\n\n" (docs.map Doc.page_content)

/-- `main.py` lines 256 and 285: `docs_with_scores[0][1]`, the score of
the first (unfiltered) provider result; `none` when the list is empty
(where Python would raise `IndexError`). -/
def topScore (results : List Scored) : Option ℚ :=
  results.head?.map Prod.snd

/-- `main.py` line 310: the phrase the post-check scans the generated
answer for. -/
def not_found_phrase : String := "I could not find information"

/-- Python substring containment (`pat in s`), on the character lists. -/
def containsSub (pat : List Char) : List Char → Bool
  | [] => pat.isEmpty
  | c :: rest => pat.isPrefixOf (c :: rest) || containsSub pat rest

/-- Python `pat in s` on strings. -/
def strContains (s pat : String) : Bool := containsSub pat.data s.data

/-- `main.py` lines 36-53: the triple-quoted RAG prompt template
(`rag_prompt_template`), verbatim. -/
def rag_prompt_template : String :=
  "\nYou are an AI assistant for company employees. Your tone should be helpful, professional, and clear.\nAnswer the user\x27s question based ONLY on the context provided below.\n\n**CRITICAL INSTRUCTIONS FOR FORMATTING YOUR RESPONSE:**\n- If the context is empty, you MUST politely state that you couldn\x27t find a specific policy related to the user\x27s question and ask them to rephrase or ask about another topic. Do not mention the word \"context\".\n- If the answer is a detailed explanation of a policy, start with a relevant heading (e.g., `### Work From Home Policy`).\n- For simple questions or greetings, provide a direct, conversational answer without a heading.\n- Use bullet points (`-`) for lists or steps.\n- Use bold text (`**key term**`) to highlight important concepts.\n- Write in clear, well-structured paragraphs.\n\nContext:\n\x7bcontext\x7d\n\nQuestion:\n\x7bquestion\x7d\n"

/-- The JSON body returned by the handler: `{"answer": ..., "source": ...}`. -/
structure ChatResponse where
  answer : String
  source : String
deriving DecidableEq

/-- Observable per-request effects: which partition searches ran, the
RAG stats stored on `request.state` (lines 255-257, 284-286, 293-295,
299), the context handed to the RAG chain, and the value of the
`source` variable after routing but before the line-310 post-check
(printed at line 302). `none` fields are attributes Python never set
on this path. -/
structure Effects where
  searchedCompany : Bool
  searchedStandards : Bool
  hit_type : Option String
  retrieval_score : Option ℚ
  doc_count : Option Nat
  context_length : Option Nat
  contextPassed : Option String
  source_routed : String
deriving DecidableEq

/-- `main.py` lines 217-225: the conversational branch. -/
def conversationalResult (question : String) (chatLLM : String → String) :
    ChatResponse × Effects :=
  ({ answer := chatLLM question, source := "" },
   { searchedCompany := false, searchedStandards := false, hit_type := none,
     retrieval_score := none, doc_count := none, context_length := none,
     contextPassed := none, source_routed := "" })

/-- `main.py` lines 298-313: the tail shared by the three routing
branches — record the context length, invoke the RAG chain on the
assembled context, and clear `source` when the answer contains the
not-found phrase. -/
def mkRagResult (question context source0 : String) (hit : Option String)
    (rscore : Option ℚ) (dcount : Option Nat) (searchedStd : Bool)
    (ragLLM : String → String → String) : ChatResponse × Effects :=
  let answer := ragLLM context question
  let source := if strContains answer not_found_phrase then "" else source0
  ({ answer := answer, source := source },
   { searchedCompany := true, searchedStandards := searchedStd,
     hit_type := hit, retrieval_score := rscore, doc_count := dcount,
     context_length := some context.length, contextPassed := some context,
     source_routed := source0 })

/-- `main.py` lines 205-313, `chat_handler`, with both partitions'
provider results supplied as values (the successful-provider case). -/
def chat_handler (question : String)
    (companyResults standardsResults : List Scored)
    (chatLLM : String → String) (ragLLM : String → String → String) :
    ChatResponse × Effects :=
  if isConversational question then
    conversationalResult question chatLLM
  else
    let company_docs := acceptDocs score_threshold companyResults
    if company_docs.isEmpty then
      let standards_docs := acceptDocs fallback_threshold standardsResults
      if standards_docs.isEmpty then
        mkRagResult question "" "" (some "none") (some 0) (some 0) true ragLLM
      else
        mkRagResult question (joinContext standards_docs) "General Standards"
          (some "standards") (topScore standardsResults)
          (some standards_docs.length) true ragLLM
    else
      mkRagResult question (joinContext company_docs) "Company Policy"
        (some "company") (topScore companyResults)
        (some company_docs.length) false ragLLM

/-- `chat_handler` with each provider call's outcome as an `Except`.
The Python handler wraps neither `similarity_search_with_score` call in
`try`/`except`, so a raised provider error aborts the handler; the
fallback provider is consulted only when the primary evidence is empty. -/
def chat_handler_exc (question : String)
    (companyResults standardsResults : Except String (List Scored))
    (chatLLM : String → String) (ragLLM : String → String → String) :
    Except String (ChatResponse × Effects) :=
  if isConversational question then
    .ok (conversationalResult question chatLLM)
  else
    match companyResults with
    | .error e => .error e
    | .ok cr =>
      let company_docs := acceptDocs score_threshold cr
      if company_docs.isEmpty then
        match standardsResults with
        | .error e => .error e
        | .ok sr =>
          let standards_docs := acceptDocs fallback_threshold sr
          if standards_docs.isEmpty then
            .ok (mkRagResult question "" "" (some "none") (some 0) (some 0)
              true ragLLM)
          else
            .ok (mkRagResult question (joinContext standards_docs)
              "General Standards" (some "standards") (topScore sr)
              (some standards_docs.length) true ragLLM)
      else
        .ok (mkRagResult question (joinContext company_docs)
          "Company Policy" (some "company") (topScore cr)
          (some company_docs.length) false ragLLM)

/-- On successful provider calls the two embeddings agree. -/
lemma chat_handler_exc_ok (q : String) (cr sr : List Scored)
    (f : String → String) (g : String → String → String) :
    chat_handler_exc q (.ok cr) (.ok sr) f g = .ok (chat_handler q cr sr f g) := by
  unfold chat_handler_exc chat_handler
  by_cases h : isConversational q
  · simp [h]
  · simp only [h, Bool.false_eq_true, if_false]
    by_cases h1 : (acceptDocs score_threshold cr).isEmpty
    · simp only [h1, if_true]
      by_cases h2 : (acceptDocs fallback_threshold sr).isEmpty
      · simp [h2]
      · simp [h2]
    · simp [h1]

/-! ### Branch lemmas for `chat_handler` -/

lemma chat_handler_conv (q : String) (cr sr : List Scored)
    (f : String → String) (g : String → String → String)
    (hq : isConversational q = true) :
    chat_handler q cr sr f g = conversationalResult q f := by
  unfold chat_handler
  simp [hq]

lemma chat_handler_company (q : String) (cr sr : List Scored)
    (f : String → String) (g : String → String → String)
    (hq : isConversational q = false)
    (hc : acceptDocs score_threshold cr ≠ []) :
    chat_handler q cr sr f g
      = mkRagResult q (joinContext (acceptDocs score_threshold cr))
          "Company Policy" (some "company") (topScore cr)
          (some (acceptDocs score_threshold cr).length) false g := by
  unfold chat_handler
  simp [hq, hc]

lemma chat_handler_standards (q : String) (cr sr : List Scored)
    (f : String → String) (g : String → String → String)
    (hq : isConversational q = false)
    (hc : acceptDocs score_threshold cr = [])
    (hs : acceptDocs fallback_threshold sr ≠ []) :
    chat_handler q cr sr f g
      = mkRagResult q (joinContext (acceptDocs fallback_threshold sr))
          "General Standards" (some "standards") (topScore sr)
          (some (acceptDocs fallback_threshold sr).length) true g := by
  unfold chat_handler
  simp [hq, hc, hs]

lemma chat_handler_noevidence (q : String) (cr sr : List Scored)
    (f : String → String) (g : String → String → String)
    (hq : isConversational q = false)
    (hc : acceptDocs score_threshold cr = [])
    (hs : acceptDocs fallback_threshold sr = []) :
    chat_handler q cr sr f g
      = mkRagResult q "" "" (some "none") (some 0) (some 0) true g := by
  unfold chat_handler
  simp [hq, hc, hs]

lemma mkRagResult_effects (q ctx src0 : String) (hit : Option String)
    (rscore : Option ℚ) (dcount : Option Nat) (sstd : Bool)
    (g : String → String → String) :
    (mkRagResult q ctx src0 hit rscore dcount sstd g).2
      = { searchedCompany := true, searchedStandards := sstd, hit_type := hit,
          retrieval_score := rscore, doc_count := dcount,
          context_length := some ctx.length, contextPassed := some ctx,
          source_routed := src0 } := rfl

lemma mkRagResult_answer (q ctx src0 : String) (hit : Option String)
    (rscore : Option ℚ) (dcount : Option Nat) (sstd : Bool)
    (g : String → String → String) :
    (mkRagResult q ctx src0 hit rscore dcount sstd g).1.answer = g ctx q := rfl

lemma mkRagResult_source (q ctx src0 : String) (hit : Option String)
    (rscore : Option ℚ) (dcount : Option Nat) (sstd : Bool)
    (g : String → String → String) :
    (mkRagResult q ctx src0 hit rscore dcount sstd g).1.source
      = if strContains (g ctx q) not_found_phrase then "" else src0 := rfl

/-- A nonempty filtered evidence list forces a nonempty provider list,
whose first score then exists. -/
lemma topScore_of_acceptDocs_ne_nil (thr : ℚ) (l : List Scored)
    (h : acceptDocs thr l ≠ []) : l ≠ [] ∧ ∃ s, topScore l = some s := by
  cases l with
  | nil => simp [acceptDocs] at h
  | cons a t => exact ⟨by simp, a.2, rfl⟩

/-! ### Claim theorems -/

/-- C1: For every SUBSTANTIVE query the company partition is searched
first, the standards partition is searched if and only if no company
passage meets the primary acceptance threshold, a passing company
passage yields routing source label "Company Policy" with no standards
search, and a passing standards passage after primary failure yields
routing source label "General Standards". -/
theorem primary_first_fallback_iff (q : String) (cr sr : List Scored)
    (f : String → String) (g : String → String → String)
    (hq : isConversational q = false) :
    (chat_handler q cr sr f g).2.searchedCompany = true
    ∧ ((chat_handler q cr sr f g).2.searchedStandards = true
        ↔ acceptDocs score_threshold cr = [])
    ∧ (acceptDocs score_threshold cr ≠ [] →
        (chat_handler q cr sr f g).2.searchedStandards = false
        ∧ (chat_handler q cr sr f g).2.source_routed = "Company Policy")
    ∧ (acceptDocs score_threshold cr = [] →
        acceptDocs fallback_threshold sr ≠ [] →
        (chat_handler q cr sr f g).2.source_routed = "General Standards") := by
  by_cases hc : acceptDocs score_threshold cr = []
  · by_cases hs : acceptDocs fallback_threshold sr = []
    · rw [chat_handler_noevidence q cr sr f g hq hc hs]
      simp [mkRagResult_effects, hc, hs]
    · rw [chat_handler_standards q cr sr f g hq hc hs]
      simp [mkRagResult_effects, hc]
  · rw [chat_handler_company q cr sr f g hq hc]
    simp [mkRagResult_effects, hc]

/-- Witness for C1 at a concrete substantive query whose primary search
yields a passing passage. -/
theorem primary_first_fallback_iff_witness :
    isConversational "what is the vpn policy" = false
    ∧ acceptDocs score_threshold [(⟨"A"⟩, mkRat 1 2)] ≠ []
    ∧ (chat_handler "what is the vpn policy" [(⟨"A"⟩, mkRat 1 2)] []
        (fun _ => "c") (fun _ _ => "ans")).2.searchedStandards = false
    ∧ (chat_handler "what is the vpn policy" [(⟨"A"⟩, mkRat 1 2)] []
        (fun _ => "c") (fun _ _ => "ans")).2.source_routed = "Company Policy" :=
  ⟨by decide, by decide,
    ((primary_first_fallback_iff "what is the vpn policy" [(⟨"A"⟩, mkRat 1 2)] []
        (fun _ => "c") (fun _ _ => "ans") (by decide)).2.2.1 (by decide)).1,
    ((primary_first_fallback_iff "what is the vpn policy" [(⟨"A"⟩, mkRat 1 2)] []
        (fun _ => "c") (fun _ _ => "ans") (by decide)).2.2.1 (by decide)).2⟩

/-- C2: Evidence filtering is inclusive (≥) at both partition
thresholds: a passage scoring exactly the threshold is kept, a passage
scoring strictly below it is dropped, and the surviving passages keep
the provider's order. -/
theorem threshold_filter_inclusive (thr : ℚ)
    (hthr : thr = score_threshold ∨ thr = fallback_threshold)
    (pre post : List Scored) (d : Doc) (s : ℚ) :
    (thr ≤ s → acceptDocs thr (pre ++ (d, s) :: post)
        = acceptDocs thr pre ++ d :: acceptDocs thr post)
    ∧ (s < thr → acceptDocs thr (pre ++ (d, s) :: post)
        = acceptDocs thr pre ++ acceptDocs thr post) := by
  constructor
  · intro h
    unfold acceptDocs
    simp [List.filter_append, List.filter_cons, h]
  · intro h
    unfold acceptDocs
    simp [List.filter_append, List.filter_cons, not_le.mpr h]

/-- Witness for C2: at the primary threshold a passage scoring exactly
0.45 is accepted, and one scoring 0.449 is rejected. -/
theorem threshold_filter_inclusive_witness :
    score_threshold ≤ mkRat 45 100
    ∧ acceptDocs score_threshold [(⟨"p"⟩, mkRat 45 100)] = [⟨"p"⟩]
    ∧ mkRat 449 1000 < score_threshold
    ∧ acceptDocs score_threshold [(⟨"q"⟩, mkRat 449 1000)] = [] :=
  ⟨by decide,
    by simpa using
      (threshold_filter_inclusive score_threshold (Or.inl rfl) [] [] ⟨"p"⟩
        (mkRat 45 100)).1 (by decide),
    by decide,
    by simpa using
      (threshold_filter_inclusive score_threshold (Or.inl rfl) [] [] ⟨"q"⟩
        (mkRat 449 1000)).2 (by decide)⟩

/-- C3: A query is CONVERSATIONAL exactly when its lowercased,
whitespace-trimmed form is one of the configured phrases; such a query
takes the CHAT prompt path, triggers no similarity search on either
partition, and returns an empty source; every other query proceeds to
the primary retrieval search. -/
theorem conversational_bypasses_retrieval (q : String) (cr sr : List Scored)
    (f : String → String) (g : String → String → String) :
    (isConversational q = true ↔ normalizeQuery q ∈ conversational_phrases)
    ∧ (isConversational q = true →
        (chat_handler q cr sr f g).2.searchedCompany = false
        ∧ (chat_handler q cr sr f g).2.searchedStandards = false
        ∧ (chat_handler q cr sr f g).1.source = ""
        ∧ (chat_handler q cr sr f g).1.answer = f q)
    ∧ (isConversational q = false →
        (chat_handler q cr sr f g).2.searchedCompany = true) := by
  refine ⟨?_, ?_, ?_⟩
  · unfold isConversational
    simp
  · intro hq
    rw [chat_handler_conv q cr sr f g hq]
    exact ⟨rfl, rfl, rfl, rfl⟩
  · intro hq
    by_cases hc : acceptDocs score_threshold cr = []
    · by_cases hs : acceptDocs fallback_threshold sr = []
      · rw [chat_handler_noevidence q cr sr f g hq hc hs]; rfl
      · rw [chat_handler_standards q cr sr f g hq hc hs]; rfl
    · rw [chat_handler_company q cr sr f g hq hc]; rfl

/-- Witness for C3 at the conversational query "thanks" and the
substantive query "what is the vpn policy". -/
theorem conversational_bypasses_retrieval_witness :
    isConversational "thanks" = true
    ∧ (chat_handler "thanks" [(⟨"A"⟩, mkRat 1 2)] [] (fun _ => "c")
        (fun _ _ => "ans")).2.searchedCompany = false
    ∧ (chat_handler "thanks" [(⟨"A"⟩, mkRat 1 2)] [] (fun _ => "c")
        (fun _ _ => "ans")).1.source = ""
    ∧ (chat_handler "what is the vpn policy" [] [] (fun _ => "c")
        (fun _ _ => "ans")).2.searchedCompany = true :=
  ⟨by decide,
    ((conversational_bypasses_retrieval "thanks" [(⟨"A"⟩, mkRat 1 2)] []
        (fun _ => "c") (fun _ _ => "ans")).2.1 (by decide)).1,
    ((conversational_bypasses_retrieval "thanks" [(⟨"A"⟩, mkRat 1 2)] []
        (fun _ => "c") (fun _ _ => "ans")).2.1 (by decide)).2.2.1,
    (conversational_bypasses_retrieval "what is the vpn policy" [] []
        (fun _ => "c") (fun _ _ => "ans")).2.2 (by decide)⟩

/-- C4: For every SUBSTANTIVE query, if the generated answer contains
the canonical refusal phrase "I could not find information", the
returned source field is empty, whatever source the routing step had
set. -/
theorem refusal_phrase_clears_source (q : String) (cr sr : List Scored)
    (f : String → String) (g : String → String → String)
    (hq : isConversational q = false)
    (hph : strContains (chat_handler q cr sr f g).1.answer not_found_phrase
      = true) :
    (chat_handler q cr sr f g).1.source = "" := by
  by_cases hc : acceptDocs score_threshold cr = []
  · by_cases hs : acceptDocs fallback_threshold sr = []
    · rw [chat_handler_noevidence q cr sr f g hq hc hs] at hph ⊢
      rw [mkRagResult_answer] at hph
      rw [mkRagResult_source, hph]
      rfl
    · rw [chat_handler_standards q cr sr f g hq hc hs] at hph ⊢
      rw [mkRagResult_answer] at hph
      rw [mkRagResult_source, hph]
      rfl
  · rw [chat_handler_company q cr sr f g hq hc] at hph ⊢
    rw [mkRagResult_answer] at hph
    rw [mkRagResult_source, hph]
    rfl

/-- Witness for C4: the synthesizer emits the refusal phrase although
primary evidence was accepted, and the source comes back empty. -/
theorem refusal_phrase_clears_source_witness :
    isConversational "leave policy" = false
    ∧ strContains (chat_handler "leave policy" [(⟨"A"⟩, mkRat 1 2)] []
        (fun _ => "c") (fun _ _ => "Sorry, I could not find information on that.")).1.answer
        not_found_phrase = true
    ∧ (chat_handler "leave policy" [(⟨"A"⟩, mkRat 1 2)] []
        (fun _ => "c") (fun _ _ => "Sorry, I could not find information on that.")).1.source
        = "" :=
  ⟨by decide, by decide,
    refusal_phrase_clears_source "leave policy" [(⟨"A"⟩, mkRat 1 2)] []
      (fun _ => "c") (fun _ _ => "Sorry, I could not find information on that.")
      (by decide) (by decide)⟩

/-- C5: For every query, provider results and synthesizer output, the
returned source field is one of "", "Company Policy",
"General Standards". -/
theorem source_label_range (q : String) (cr sr : List Scored)
    (f : String → String) (g : String → String → String) :
    (chat_handler q cr sr f g).1.source = ""
    ∨ (chat_handler q cr sr f g).1.source = "Company Policy"
    ∨ (chat_handler q cr sr f g).1.source = "General Standards" := by
  by_cases hq : isConversational q
  · rw [chat_handler_conv q cr sr f g hq]
    exact Or.inl rfl
  · rw [Bool.not_eq_true] at hq
    by_cases hc : acceptDocs score_threshold cr = []
    · by_cases hs : acceptDocs fallback_threshold sr = []
      · rw [chat_handler_noevidence q cr sr f g hq hc hs, mkRagResult_source]
        split
        · exact Or.inl rfl
        · exact Or.inl rfl
      · rw [chat_handler_standards q cr sr f g hq hc hs, mkRagResult_source]
        split
        · exact Or.inl rfl
        · exact Or.inr (Or.inr rfl)
    · rw [chat_handler_company q cr sr f g hq hc, mkRagResult_source]
      split
      · exact Or.inl rfl
      · exact Or.inr (Or.inl rfl)

/-- C6 counterexample: a primary-search provider error on a substantive
query propagates out of the chat handler instead of degrading to zero
results — the handler wraps neither search in a `try`/`except`. -/
theorem provider_fault_propagates_cex :
    chat_handler_exc "what is the password policy" (.error "provider timeout")
      (.ok []) (fun _ => "c") (fun _ _ => "ans") = .error "provider timeout" := rfl

/-- C6 amended: a provider error during the primary search of a
substantive query propagates to the caller; a provider error during the
fallback search propagates when that search is reached (primary
evidence empty); when primary evidence is accepted the fallback
provider is never consulted, so its fault cannot surface. -/
theorem provider_fault_propagation (q : String) (e e2 : String)
    (sr : Except String (List Scored)) (cr : List Scored)
    (f : String → String) (g : String → String → String)
    (hq : isConversational q = false) :
    chat_handler_exc q (.error e) sr f g = .error e
    ∧ (acceptDocs score_threshold cr = [] →
        chat_handler_exc q (.ok cr) (.error e2) f g = .error e2)
    ∧ (acceptDocs score_threshold cr ≠ [] →
        chat_handler_exc q (.ok cr) (.error e2) f g
          = .ok (mkRagResult q (joinContext (acceptDocs score_threshold cr))
              "Company Policy" (some "company") (topScore cr)
              (some (acceptDocs score_threshold cr).length) false g)) := by
  refine ⟨?_, ?_, ?_⟩
  · unfold chat_handler_exc
    simp [hq]
  · intro hc
    unfold chat_handler_exc
    simp [hq, hc]
  · intro hc
    unfold chat_handler_exc
    simp [hq, hc]

/-- Witness for C6 amended at concrete inputs. -/
theorem provider_fault_propagation_witness :
    isConversational "data retention rules" = false
    ∧ chat_handler_exc "data retention rules" (.error "boom") (.ok [])
        (fun _ => "c") (fun _ _ => "ans") = .error "boom"
    ∧ chat_handler_exc "data retention rules" (.ok ([] : List Scored))
        (.error "crash") (fun _ => "c") (fun _ _ => "ans") = .error "crash" :=
  ⟨by decide,
    (provider_fault_propagation "data retention rules" "boom" "crash" (.ok [])
      [] (fun _ => "c") (fun _ _ => "ans") (by decide)).1,
    (provider_fault_propagation "data retention rules" "boom" "crash" (.ok [])
      [] (fun _ => "c") (fun _ _ => "ans") (by decide)).2.1 (by decide)⟩

/-- C7 counterexample: an empty and a whitespace-only question are not
rejected by any validation; both reach the Retrieval Router and trigger
the primary (company) search. -/
theorem blank_question_not_rejected_cex :
    (chat_handler "" [] [] (fun _ => "c") (fun _ _ => "ans")).2.searchedCompany
      = true
    ∧ (chat_handler "   " [] [] (fun _ => "c")
        (fun _ _ => "ans")).2.searchedCompany = true := by decide

/-- C7 amended: an empty or whitespace-only question is not rejected at
the boundary; its normalized form is the empty string, which is not a
conversational phrase, so the query is treated as SUBSTANTIVE, reaches
the Retrieval Router and is answered through the RAG chain. -/
theorem blank_question_proceeds_to_router (q : String) (cr sr : List Scored)
    (f : String → String) (g : String → String → String)
    (hq : normalizeQuery q = "") :
    (chat_handler q cr sr f g).2.searchedCompany = true
    ∧ (chat_handler q cr sr f g).2.contextPassed ≠ none := by
  have hconv : isConversational q = false := by
    unfold isConversational
    rw [hq]
    decide
  by_cases hc : acceptDocs score_threshold cr = []
  · by_cases hs : acceptDocs fallback_threshold sr = []
    · rw [chat_handler_noevidence q cr sr f g hconv hc hs]
      exact ⟨rfl, by simp [mkRagResult_effects]⟩
    · rw [chat_handler_standards q cr sr f g hconv hc hs]
      exact ⟨rfl, by simp [mkRagResult_effects]⟩
  · rw [chat_handler_company q cr sr f g hconv hc]
    exact ⟨rfl, by simp [mkRagResult_effects]⟩

/-- Witness for C7 amended at the whitespace-only question. -/
theorem blank_question_proceeds_to_router_witness :
    normalizeQuery "   " = ""
    ∧ (chat_handler "   " [] [] (fun _ => "c")
        (fun _ _ => "ans")).2.searchedCompany = true :=
  ⟨by decide,
    (blank_question_proceeds_to_router "   " [] [] (fun _ => "c")
      (fun _ _ => "ans") (by decide)).1⟩

/-- C8: For every SUBSTANTIVE query the context handed to the
synthesizer is the accepted passages' texts joined with a double
newline in filtering order — the empty string when nothing was
accepted — and the recorded context-length metric is the character
count of that context, which is exactly what the RAG chain is invoked
with. -/
theorem context_assembly_and_metric (q : String) (cr sr : List Scored)
    (f : String → String) (g : String → String → String)
    (hq : isConversational q = false) :
    (acceptDocs score_threshold cr ≠ [] →
      (chat_handler q cr sr f g).2.contextPassed
        = some (String.intercalate "\n\n"
            ((acceptDocs score_threshold cr).map Doc.page_content)))
    ∧ (acceptDocs score_threshold cr = [] →
        acceptDocs fallback_threshold sr ≠ [] →
        (chat_handler q cr sr f g).2.contextPassed
          = some (String.intercalate "\n\n"
              ((acceptDocs fallback_threshold sr).map Doc.page_content)))
    ∧ (acceptDocs score_threshold cr = [] →
        acceptDocs fallback_threshold sr = [] →
        (chat_handler q cr sr f g).2.contextPassed = some "")
    ∧ (∀ ctx : String, (chat_handler q cr sr f g).2.contextPassed = some ctx →
        (chat_handler q cr sr f g).2.context_length = some ctx.length
        ∧ (chat_handler q cr sr f g).1.answer = g ctx q) := by
  by_cases hc : acceptDocs score_threshold cr = []
  · by_cases hs : acceptDocs fallback_threshold sr = []
    · rw [chat_handler_noevidence q cr sr f g hq hc hs]
      refine ⟨fun h => absurd hc h, fun _ h => absurd hs h, fun _ _ => rfl,
        fun ctx hctx => ?_⟩
      rw [mkRagResult_effects] at hctx
      obtain rfl : "" = ctx := by simpa using hctx
      exact ⟨rfl, rfl⟩
    · rw [chat_handler_standards q cr sr f g hq hc hs]
      refine ⟨fun h => absurd hc h, fun _ _ => rfl, fun _ h => absurd h hs,
        fun ctx hctx => ?_⟩
      rw [mkRagResult_effects] at hctx
      obtain rfl : joinContext (acceptDocs fallback_threshold sr) = ctx := by
        simpa using hctx
      exact ⟨rfl, rfl⟩
  · rw [chat_handler_company q cr sr f g hq hc]
    refine ⟨fun _ => rfl, fun h => absurd h hc, fun h => absurd h hc,
      fun ctx hctx => ?_⟩
    rw [mkRagResult_effects] at hctx
    obtain rfl : joinContext (acceptDocs score_threshold cr) = ctx := by
      simpa using hctx
    exact ⟨rfl, rfl⟩

/-- Witness for C8: two accepted company passages produce the
double-newline-joined context, its length as the metric, and that same
context reaches the synthesizer. -/
theorem context_assembly_and_metric_witness :
    isConversational "password rules" = false
    ∧ acceptDocs score_threshold [(⟨"aa"⟩, mkRat 3 5), (⟨"bb"⟩, mkRat 1 2)] ≠ []
    ∧ (chat_handler "password rules" [(⟨"aa"⟩, mkRat 3 5), (⟨"bb"⟩, mkRat 1 2)]
        [] (fun _ => "c") (fun ctx _ => ctx)).2.contextPassed
        = some (String.intercalate "\n\n"
            ((acceptDocs score_threshold
              [(⟨"aa"⟩, mkRat 3 5), (⟨"bb"⟩, mkRat 1 2)]).map Doc.page_content))
    ∧ (chat_handler "password rules" [(⟨"aa"⟩, mkRat 3 5), (⟨"bb"⟩, mkRat 1 2)]
        [] (fun _ => "c") (fun ctx _ => ctx)).2.context_length = some 6
    ∧ (chat_handler "password rules" [(⟨"aa"⟩, mkRat 3 5), (⟨"bb"⟩, mkRat 1 2)]
        [] (fun _ => "c") (fun ctx _ => ctx)).1.answer = "aa\n\nbb" :=
  ⟨by decide, by decide,
    (context_assembly_and_metric "password rules"
      [(⟨"aa"⟩, mkRat 3 5), (⟨"bb"⟩, mkRat 1 2)] [] (fun _ => "c")
      (fun ctx _ => ctx) (by decide)).1 (by decide),
    by decide, by decide⟩

set_option maxRecDepth 4000 in
/-- C9: the RAG prompt template never contains the canonical phrase
"I could not find information" that the post-check at line 310 scans
the generated answer for — the template only asks the model to
"politely state" that no specific policy was found, so the mandated
refusal string of the prompt contract is absent from the code's
template. -/
theorem rag_template_lacks_refusal_phrase :
    strContains rag_prompt_template not_found_phrase = false
    ∧ strContains rag_prompt_template "politely state" = true := by
  constructor
  · decide
  · decide

/-- C10: whenever evidence from a partition was accepted, the
unfiltered provider result list of that partition is nonempty, so the
top-score read `docs_with_scores[0][1]` is in bounds and the recorded
retrieval score is exactly that first score. -/
theorem top_score_access_in_bounds (q : String) (cr sr : List Scored)
    (f : String → String) (g : String → String → String)
    (hq : isConversational q = false) :
    ((chat_handler q cr sr f g).2.hit_type = some "company" →
      cr ≠ [] ∧ ∃ s, (chat_handler q cr sr f g).2.retrieval_score = some s
        ∧ topScore cr = some s)
    ∧ ((chat_handler q cr sr f g).2.hit_type = some "standards" →
      sr ≠ [] ∧ ∃ s, (chat_handler q cr sr f g).2.retrieval_score = some s
        ∧ topScore sr = some s) := by
  by_cases hc : acceptDocs score_threshold cr = []
  · by_cases hs : acceptDocs fallback_threshold sr = []
    · rw [chat_handler_noevidence q cr sr f g hq hc hs]
      rw [mkRagResult_effects]
      exact ⟨fun h => by simp at h, fun h => by simp at h⟩
    · rw [chat_handler_standards q cr sr f g hq hc hs]
      rw [mkRagResult_effects]
      refine ⟨fun h => by simp at h, fun _ => ?_⟩
      obtain ⟨hne, s, hts⟩ := topScore_of_acceptDocs_ne_nil fallback_threshold sr hs
      exact ⟨hne, s, by simpa using hts, hts⟩
  · rw [chat_handler_company q cr sr f g hq hc]
    rw [mkRagResult_effects]
    refine ⟨fun _ => ?_, fun h => by simp at h⟩
    obtain ⟨hne, s, hts⟩ := topScore_of_acceptDocs_ne_nil score_threshold cr hc
    exact ⟨hne, s, by simpa using hts, hts⟩

/-- Witness for C10: a company hit records the first provider score,
here 0.6 ahead of a rejected 0.2 entry. -/
theorem top_score_access_in_bounds_witness :
    isConversational "incident response" = false
    ∧ (chat_handler "incident response"
        [(⟨"A"⟩, mkRat 3 5), (⟨"B"⟩, mkRat 1 5)] [] (fun _ => "c")
        (fun _ _ => "ans")).2.hit_type = some "company"
    ∧ ((chat_handler "incident response"
        [(⟨"A"⟩, mkRat 3 5), (⟨"B"⟩, mkRat 1 5)] [] (fun _ => "c")
        (fun _ _ => "ans")).2.retrieval_score = some (mkRat 3 5)
      ∧ topScore [(⟨"A"⟩, mkRat 3 5), (⟨"B"⟩, mkRat 1 5)] = some (mkRat 3 5)) := by
  refine ⟨by decide, by decide, ?_⟩
  obtain ⟨-, s, hs1, hs2⟩ :=
    (top_score_access_in_bounds "incident response"
      [(⟨"A"⟩, mkRat 3 5), (⟨"B"⟩, mkRat 1 5)] [] (fun _ => "c")
      (fun _ _ => "ans") (by decide)).1 (by decide)
  obtain rfl : s = mkRat 3 5 := by
    have : some s = some (mkRat 3 5) := by rw [← hs2]; decide
    simpa using this
  exact ⟨hs1, hs2⟩

end PolicyAdvisor
